import Mathlib

/-!
Verification of the financial-report analysis app (`src/python.py`).

The script reads a three-column table (indicator label `Chỉ tiêu`, prior-period
value `Năm trước`, current-period value `Năm sau`), coerces the two value
columns to numbers, derives a growth column and two composition-share columns
anchored on the `TỔNG CỘNG TÀI SẢN` row, renders the result, computes two
liquidity ratios, and optionally forwards the data to an external model.

Numbers are modelled as rationals; a raw cell is `Option ℚ`, `none` standing
for a missing or non-numeric cell (which `pd.to_numeric(errors=..).fillna(0)`
coerces to `0`). The fallible computation returns `Except`, mirroring the
raised `ValueError`; the in-place mutation of the DataFrame argument is made
explicit by also returning the argument object's final state.
-/

/-- A row of the DataFrame. The three input columns are always present; the
three derived columns are `none` until the corresponding column is assigned
(a freshly loaded table has them `none`). -/
structure FinRow where
  chi_tieu : String
  nam_truoc : Option ℚ
  nam_sau : Option ℚ
  toc_do_tang_truong : Option ℚ := none
  ty_trong_truoc : Option ℚ := none
  ty_trong_sau : Option ℚ := none
deriving DecidableEq, Repr

/-- `leadsWith pat s` holds when `pat` is an initial segment of `s`. -/
def leadsWith : List Char → List Char → Bool
  | [], _ => true
  | _ :: _, [] => false
  | a :: pa, b :: sb => a == b && leadsWith pa sb

/-- `containsPat pat s` holds when `pat` occurs contiguously inside `s`. -/
def containsPat (pat : List Char) : List Char → Bool
  | [] => pat.isEmpty
  | c :: t => leadsWith pat (c :: t) || containsPat pat t

/-- Case-insensitive substring containment, modelling
`Series.str.contains(pat, case=False)` (ASCII case folding; the labels and
patterns used by the script are compared in matching case). -/
def containsCI (s pat : String) : Bool :=
  containsPat (pat.toList.map Char.toLower) (s.toList.map Char.toLower)

/-- The negligible constant `1e-9` used by the script to avoid division by
zero (lines 50, 62-63). -/
def eps : ℚ := 1 / 1000000000

/-- `pd.to_numeric(df[col], errors=..).fillna(0)` applied to both value
columns of one row (lines 44-46): a missing/non-numeric cell becomes `0`. -/
def coerceRow (r : FinRow) : FinRow :=
  { r with nam_truoc := some (r.nam_truoc.getD 0), nam_sau := some (r.nam_sau.getD 0) }

/-- The growth formula of lines 49-51:
`(Năm sau - Năm trước) / (Năm trước with 0 replaced by 1e-9) * 100`. -/
def growthPct (p c : ℚ) : ℚ :=
  (c - p) / (if p = 0 then eps else p) * 100

/-- Assignment of the growth column to one row (lines 49-51), reading the
already-coerced value columns. -/
def addGrowth (r : FinRow) : FinRow :=
  { r with toc_do_tang_truong := some (growthPct (r.nam_truoc.getD 0) (r.nam_sau.getD 0)) }

/-- The state of the DataFrame after the coercion step and the growth-column
assignment (lines 44-51), before the anchor lookup. -/
def prepared (df : List FinRow) : List FinRow :=
  df.map (fun r => addGrowth (coerceRow r))

/-- The anchor-row predicate of line 54:
`df[df[Chỉ tiêu].str.contains(TỔNG CỘNG TÀI SẢN, case=False, na=False)]`. -/
def matchesTongTaiSan (r : FinRow) : Bool :=
  containsCI r.chi_tieu "TỔNG CỘNG TÀI SẢN"

/-- Assignment of the two share columns to one row (lines 65-66), given the
already-epsilon-guarded divisors. -/
def addShares (dP dC : ℚ) (r : FinRow) : FinRow :=
  { r with ty_trong_truoc := some (r.nam_truoc.getD 0 / dP * 100),
           ty_trong_sau := some (r.nam_sau.getD 0 / dC * 100) }

/-- `process_financial_data` (lines 39-68) with the in-place mutation made
explicit: the first component is the final state of the DataFrame object
passed as argument (the function assigns columns to it before returning it,
and has coerced the value columns and assigned the growth column even when it
raises), the second is the returned value (`Except.error` models the raised
`ValueError` of line 57). -/
def process_state (df : List FinRow) : List FinRow × Except String (List FinRow) :=
  match (prepared df).find? matchesTongTaiSan with
  | none => (prepared df, .error "Không tìm thấy chỉ tiêu TỔNG CỘNG TÀI SẢN.")
  | some anchor =>
      let dP := if anchor.nam_truoc.getD 0 ≠ 0 then anchor.nam_truoc.getD 0 else eps
      let dC := if anchor.nam_sau.getD 0 ≠ 0 then anchor.nam_sau.getD 0 else eps
      let out := (prepared df).map (addShares dP dC)
      (out, .ok out)

/-- The value returned by `process_financial_data` (line 68/57). -/
def process_financial_data (df : List FinRow) : Except String (List FinRow) :=
  (process_state df).2

/-- The short-term-assets predicate of lines 161-162 and 207. -/
def matchesTaiSanNganHan (r : FinRow) : Bool :=
  containsCI r.chi_tieu "TÀI SẢN NGẮN HẠN"

/-- The short-term-liabilities predicate of lines 165-166. -/
def matchesNoNganHan (r : FinRow) : Bool :=
  containsCI r.chi_tieu "NỢ NGẮN HẠN"

/-- The current-ratio computation of lines 169-170:
`ts / no if no != 0 else float(inf)`; `none` models the `float(inf)`
sentinel. -/
def thanh_toan_hien_hanh (ts no : ℚ) : Option ℚ :=
  if no ≠ 0 then some (ts / no) else none

/-- What a `st.metric` value renders as: the literal infinity symbol when the
ratio is the `float(inf)` sentinel (lines 176, 185), otherwise the
two-decimal rendering of the finite value (carried here as the exact
rational). -/
inductive MetricText where
  | infinitySymbol
  | finiteText (q : ℚ)
deriving DecidableEq, Repr

/-- The `value=` argument of `st.metric` (lines 176, 185). -/
def ratioText (r : Option ℚ) : MetricText :=
  match r with
  | none => .infinitySymbol
  | some q => .finiteText q

/-- What the `delta=` argument renders as: the string `N/A` or a finite
difference (lines 179-181). -/
inductive DeltaText where
  | na
  | finiteDelta (q : ℚ)
deriving DecidableEq, Repr

/-- `delta_value` of lines 179-181: `N/A` unless both ratios are finite, in
which case the difference current-period minus prior-period. -/
def deltaText (rN rN1 : Option ℚ) : DeltaText :=
  match rN, rN1 with
  | some a, some b => .finiteDelta (a - b)
  | _, _ => .na

/-- Section 4 of the script (lines 159-192): look up the first short-term
assets row and the first short-term liabilities row of the processed table
and compute the two current ratios; `none` models the `IndexError` raised by
`.iloc[0]` on an empty selection, which the handler of lines 189-190 turns
into a warning. -/
def chucNang4 (dfp : List FinRow) : Option (Option ℚ × Option ℚ) :=
  match dfp.find? matchesTaiSanNganHan, dfp.find? matchesNoNganHan with
  | some ra, some rl =>
      some (thanh_toan_hien_hanh (ra.nam_sau.getD 0) (rl.nam_sau.getD 0),
            thanh_toan_hien_hanh (ra.nam_truoc.getD 0) (rl.nam_truoc.getD 0))
  | _, _ => none

/-- The user-visible elements produced by one pass over an uploaded table
(lines 101-275), in the order the script emits them. -/
inductive Shown where
  | derivedTable (rows : List FinRow)
  | liquidityMetrics (truoc sau : MetricText) (delta : DeltaText)
  | warningMissingIndicator
  | aiSection (hasClient : Bool)
  | chatSection (active : Bool)
  | structuralError (msg : String)
  | genericError
deriving DecidableEq, Repr

/-- The body of the upload handler (lines 109-275) for an already-parsed
three-column table. A raised `ValueError` reaches the handler of lines
272-273 and only the structural-error message is shown. On success the
derived table is rendered (line 145), then section 4 renders either the two
liquidity metrics or the missing-indicator warning (lines 159-192). Building
`data_for_ai` (lines 198-211) again indexes the first short-term-assets row
with `.iloc[0]` outside any `IndexError` handler, so when that row is absent
the generic `except Exception` handler of lines 274-275 fires and the AI and
chat sections (lines 213-269) are never emitted; otherwise they are, the AI
button reporting a key error and the chat pane an info message when no
client is configured (lines 219-220, 268-269). -/
def appBody (hasClient : Bool) (df_raw : List FinRow) : List Shown :=
  match process_financial_data df_raw with
  | .error msg => [Shown.structuralError ("Lỗi cấu trúc dữ liệu: " ++ msg)]
  | .ok dfp =>
      let sec4 : List Shown :=
        match chucNang4 dfp with
        | some rs => [Shown.liquidityMetrics (ratioText rs.2) (ratioText rs.1) (deltaText rs.1 rs.2)]
        | none => [Shown.warningMissingIndicator]
      match dfp.find? matchesTaiSanNganHan with
      | none => Shown.derivedTable dfp :: sec4 ++ [Shown.genericError]
      | some _ => Shown.derivedTable dfp :: sec4 ++ [Shown.aiSection hasClient, Shown.chatSection hasClient]

/-- Python `or` on two optional strings (line 19): the left value unless it
is falsy (absent or empty). -/
def pyOrStr (a b : Option String) : Option String :=
  match a with
  | some s => if s = "" then b else some s
  | none => b

/-- Line 19: `st.secrets.get(..) or os.environ.get(..)`. -/
def API_KEY (secrets env : Option String) : Option String :=
  pyOrStr secrets env

/-- Python truthiness of an optional string. -/
def isTruthy (o : Option String) : Bool :=
  match o with
  | none => false
  | some s => s != ""

/-- Lines 21-29: a client is configured exactly when the resolved key is
truthy (client construction is modelled as succeeding; it carries the key). -/
def GEMINI_CLIENT (secrets env : Option String) : Option String :=
  if isTruthy (API_KEY secrets env) then API_KEY secrets env else none

/-- Outcome of `get_ai_analysis`: either the configuration-error string of
line 74, returned before any network activity, or an external call carrying
the prompt of lines 76-81. -/
inductive AIOutcome where
  | configError (msg : String)
  | externalCall (prompt : String)
deriving DecidableEq, Repr

/-- `get_ai_analysis` (lines 71-92) up to the external call: the client is
checked first (lines 73-74) and only when it is present is a request built
and sent. -/
def get_ai_analysis (client : Option String) (data_for_ai : String) : AIOutcome :=
  match client with
  | none => .configError "Lỗi: Không tìm thấy Khóa API. Vui lòng cấu hình GEMINI_API_KEY."
  | some _ =>
      .externalCall
        ("Bạn là một chuyên gia phân tích tài chính chuyên nghiệp. Dựa trên các chỉ số tài chính sau, hãy đưa ra một nhận xét khách quan, ngắn gọn về tình hình tài chính của doanh nghiệp. Dữ liệu thô và chỉ số: "
          ++ data_for_ai)

/-- The `st.cache_data` decorator of line 39, modelled as content-keyed
memoization: a cache of previously seen argument tables with their results;
on a hit the stored result is returned and nothing is recomputed, on a miss
`process_financial_data` runs and the pair is stored. -/
def cachedCall (cache : List (List FinRow × Except String (List FinRow))) (df : List FinRow) :
    Except String (List FinRow) × List (List FinRow × Except String (List FinRow)) :=
  match cache.find? (fun e => decide (e.1 = df)) with
  | some e => (e.2, cache)
  | none => (process_financial_data df, (df, process_financial_data df) :: cache)

/-! ## Helper lemmas -/

theorem eps_guard_flip (v : ℚ) : (if v ≠ 0 then v else eps) = (if v = 0 then eps else v) := by
  by_cases h : v = 0 <;> simp [h]

theorem find?_prepared (df : List FinRow) :
    (prepared df).find? matchesTongTaiSan
      = (df.find? matchesTongTaiSan).map (fun r => addGrowth (coerceRow r)) := by
  unfold prepared
  rw [List.find?_map]
  have h : (matchesTongTaiSan ∘ fun r => addGrowth (coerceRow r)) = matchesTongTaiSan :=
    funext (fun r => rfl)
  rw [h]

theorem process_ok_shape (df out : List FinRow) (h : process_financial_data df = .ok out) :
    ∃ a, (prepared df).find? matchesTongTaiSan = some a ∧
      out = (prepared df).map
        (addShares (if a.nam_truoc.getD 0 ≠ 0 then a.nam_truoc.getD 0 else eps)
                   (if a.nam_sau.getD 0 ≠ 0 then a.nam_sau.getD 0 else eps)) := by
  unfold process_financial_data process_state at h
  split at h
  · exact absurd h (by simp)
  · rename_i a hf
    refine ⟨a, hf, ?_⟩
    simpa using h.symm

/-! ## C1: the growth column -/

/-- C1: for every row of the input table, after numeric coercion, the growth
column is `(current - prior) / d * 100` with `d = prior` when the prior is
nonzero and `d = eps = 1e-9` when it is zero. -/
theorem growth_column_formula (df out : List FinRow)
    (h : process_financial_data df = .ok out) :
    out.map (fun r => r.toc_do_tang_truong)
      = df.map (fun r => some (growthPct (r.nam_truoc.getD 0) (r.nam_sau.getD 0))) := by
  obtain ⟨a, hf, hout⟩ := process_ok_shape df out h
  subst hout
  unfold prepared
  rw [List.map_map, List.map_map]
  congr 1

def exDf1 : List FinRow :=
  [ { chi_tieu := "TÀI SẢN NGẮN HẠN", nam_truoc := some 100, nam_sau := some 150 },
    { chi_tieu := "Hàng tồn kho", nam_truoc := some 0, nam_sau := some 50 },
    { chi_tieu := "TỔNG CỘNG TÀI SẢN", nam_truoc := some 1000, nam_sau := some 1200 } ]

def exOut1 : List FinRow := (prepared exDf1).map (addShares 1000 1200)

/-- Witness for C1: the row prior=100, current=150 gets growth 50, and the
row prior=0, current=50 gets the very large positive finite value 5e12. -/
theorem growth_column_formula_witness :
    process_financial_data exDf1 = .ok exOut1
    ∧ exOut1.map (fun r => r.toc_do_tang_truong) = [some 50, some 5000000000000, some 20]
    ∧ (0 : ℚ) < 5000000000000 := by
  refine ⟨rfl, ?_, by norm_num⟩
  rw [growth_column_formula exDf1 exOut1 rfl]
  with_unfolding_all rfl

/-! ## C4: rows preserved -/

/-- C4: on success the output has exactly the input rows in the input order,
with equal row count, equal label column, and the (coerced) value columns of
the input; only the three derived columns are added. -/
theorem rows_preserved (df out : List FinRow)
    (h : process_financial_data df = .ok out) :
    out.length = df.length
    ∧ out.map (fun r => r.chi_tieu) = df.map (fun r => r.chi_tieu)
    ∧ out.map (fun r => (r.nam_truoc.getD 0, r.nam_sau.getD 0))
        = df.map (fun r => (r.nam_truoc.getD 0, r.nam_sau.getD 0)) := by
  obtain ⟨a, hf, hout⟩ := process_ok_shape df out h
  subst hout
  unfold prepared
  refine ⟨by simp, ?_, ?_⟩ <;> (rw [List.map_map, List.map_map]; congr 1)

def exDf4 : List FinRow :=
  [ { chi_tieu := "Tiền mặt", nam_truoc := some 5, nam_sau := some 7 },
    { chi_tieu := "TỔNG CỘNG TÀI SẢN", nam_truoc := some 10, nam_sau := some 20 },
    { chi_tieu := "Nợ khác", nam_truoc := some 3, nam_sau := none } ]

/-- Witness for C4 at a concrete three-row table. -/
theorem rows_preserved_witness :
    process_financial_data exDf4 = .ok ((prepared exDf4).map (addShares 10 20))
    ∧ ((prepared exDf4).map (addShares 10 20)).length = exDf4.length
    ∧ ((prepared exDf4).map (addShares 10 20)).map (fun r => r.chi_tieu)
        = exDf4.map (fun r => r.chi_tieu) := by
  refine ⟨rfl, ?_, ?_⟩
  · exact (rows_preserved exDf4 ((prepared exDf4).map (addShares 10 20)) rfl).1
  · exact (rows_preserved exDf4 ((prepared exDf4).map (addShares 10 20)) rfl).2.1

/-! ## C5: coercion to zero before arithmetic -/

theorem prepared_coerce_idem (df : List FinRow) :
    prepared (df.map coerceRow) = prepared df := by
  unfold prepared
  rw [List.map_map]
  congr 1

theorem process_congr_prepared (df df' : List FinRow)
    (h : prepared df = prepared df') :
    process_financial_data df = process_financial_data df' := by
  unfold process_financial_data process_state
  rw [h]

/-- C5: every missing or non-numeric prior/current cell is replaced by zero
before any arithmetic: the value columns the computation runs on are exactly
the zero-defaulted ones, and explicitly zero-filling the raw cells first
(`coerceRow` maps an absent cell to `some 0` and keeps a numeric cell) gives
the identical result, so no undefined value propagates. -/
theorem coercion_to_zero (df : List FinRow) :
    (prepared df).map (fun r => (r.nam_truoc, r.nam_sau))
      = df.map (fun r => (some (r.nam_truoc.getD 0), some (r.nam_sau.getD 0)))
    ∧ process_financial_data (df.map coerceRow) = process_financial_data df := by
  constructor
  · unfold prepared
    rw [List.map_map]
    congr 1
  · exact process_congr_prepared _ _ (prepared_coerce_idem df)

/-! ## C3: missing anchor row aborts the computation -/

/-- C3: when no row label contains the total-assets anchor substring, the
calculator raises (returns the structural `ValueError`) and the upload
handler shows only the structural-error message: no derived table, no
partial result. -/
theorem missing_anchor_aborts (df : List FinRow) (b : Bool)
    (h : ∀ r ∈ df, matchesTongTaiSan r = false) :
    process_financial_data df = .error "Không tìm thấy chỉ tiêu TỔNG CỘNG TÀI SẢN."
    ∧ appBody b df
        = [Shown.structuralError ("Lỗi cấu trúc dữ liệu: " ++ "Không tìm thấy chỉ tiêu TỔNG CỘNG TÀI SẢN.")] := by
  have hfind : (prepared df).find? matchesTongTaiSan = none := by
    rw [find?_prepared]
    rw [List.find?_eq_none.mpr (fun r hr => by simp [h r hr])]
    rfl
  have hproc : process_financial_data df = .error "Không tìm thấy chỉ tiêu TỔNG CỘNG TÀI SẢN." := by
    unfold process_financial_data process_state
    rw [hfind]
  refine ⟨hproc, ?_⟩
  unfold appBody
  rw [hproc]

def exDf3 : List FinRow :=
  [ { chi_tieu := "Tiền mặt", nam_truoc := some 5, nam_sau := some 7 },
    { chi_tieu := "NỢ NGẮN HẠN", nam_truoc := some 3, nam_sau := some 4 } ]

/-- Witness for C3 at a concrete table with no anchor-like row. -/
theorem missing_anchor_aborts_witness :
    process_financial_data exDf3 = .error "Không tìm thấy chỉ tiêu TỔNG CỘNG TÀI SẢN."
    ∧ appBody true exDf3
        = [Shown.structuralError ("Lỗi cấu trúc dữ liệu: " ++ "Không tìm thấy chỉ tiêu TỔNG CỘNG TÀI SẢN.")] :=
  missing_anchor_aborts exDf3 true (by decide)

/-! ## C2: the share columns -/

/-- C2: with an anchor row present, the first matching row's (coerced) prior
and current values, each replaced by `eps = 1e-9` when zero, divide every
row's values to give the two share columns (times 100). -/
theorem shares_columns (df : List FinRow) (a : FinRow)
    (ha : df.find? matchesTongTaiSan = some a) :
    ∃ out, process_financial_data df = .ok out
      ∧ out.map (fun r => r.ty_trong_truoc)
          = df.map (fun r => some (r.nam_truoc.getD 0
              / (if a.nam_truoc.getD 0 = 0 then eps else a.nam_truoc.getD 0) * 100))
      ∧ out.map (fun r => r.ty_trong_sau)
          = df.map (fun r => some (r.nam_sau.getD 0
              / (if a.nam_sau.getD 0 = 0 then eps else a.nam_sau.getD 0) * 100)) := by
  have hfind : (prepared df).find? matchesTongTaiSan = some (addGrowth (coerceRow a)) := by
    rw [find?_prepared, ha]; rfl
  refine ⟨(prepared df).map
      (addShares (if a.nam_truoc.getD 0 ≠ 0 then a.nam_truoc.getD 0 else eps)
                 (if a.nam_sau.getD 0 ≠ 0 then a.nam_sau.getD 0 else eps)), ?_, ?_, ?_⟩
  · unfold process_financial_data process_state
    rw [hfind]
    exact rfl
  · rw [eps_guard_flip]
    unfold prepared
    rw [List.map_map, List.map_map]
    congr 1
  · rw [eps_guard_flip, eps_guard_flip]
    unfold prepared
    rw [List.map_map, List.map_map]
    congr 1

def exDf2 : List FinRow :=
  [ { chi_tieu := "Hàng tồn kho", nam_truoc := some 200, nam_sau := some 300 },
    { chi_tieu := "TỔNG CỘNG TÀI SẢN", nam_truoc := some 1000, nam_sau := some 1200 } ]

def anchor2 : FinRow :=
  { chi_tieu := "TỔNG CỘNG TÀI SẢN", nam_truoc := some 1000, nam_sau := some 1200 }

/-- Witness for C2: anchor prior=1000, current=1200 and a row prior=200,
current=300 give shares 20 and 25. -/
theorem shares_columns_witness :
    (∃ out, process_financial_data exDf2 = .ok out
      ∧ out.map (fun r => r.ty_trong_truoc)
          = exDf2.map (fun r => some (r.nam_truoc.getD 0
              / (if anchor2.nam_truoc.getD 0 = 0 then eps else anchor2.nam_truoc.getD 0) * 100))
      ∧ out.map (fun r => r.ty_trong_sau)
          = exDf2.map (fun r => some (r.nam_sau.getD 0
              / (if anchor2.nam_sau.getD 0 = 0 then eps else anchor2.nam_sau.getD 0) * 100)))
    ∧ ((process_financial_data exDf2).toOption.getD []).map (fun r => r.ty_trong_truoc)
        = [some 20, some 100]
    ∧ ((process_financial_data exDf2).toOption.getD []).map (fun r => r.ty_trong_sau)
        = [some 25, some 100] :=
  ⟨shares_columns exDf2 anchor2 rfl, by with_unfolding_all rfl, by with_unfolding_all rfl⟩

/-! ## C10: the first matching row anchors every share computation -/

/-- C10: for every table with at least one anchor-like row, the first such
row under `List.find?` (no uniqueness check: later matching rows play no
role) determines the divisors of the share columns of every row, and the
output row that is the first match has prior share 100 whenever its coerced
prior value is nonzero and current share 100 whenever its coerced current
value is nonzero, each independently of the other. -/
theorem anchor_first_match_share_100 (df : List FinRow) (a : FinRow)
    (ha : df.find? matchesTongTaiSan = some a) :
    ∃ out a2, process_financial_data df = .ok out
      ∧ out.map (fun r => r.ty_trong_truoc)
          = df.map (fun r => some (r.nam_truoc.getD 0
              / (if a.nam_truoc.getD 0 ≠ 0 then a.nam_truoc.getD 0 else eps) * 100))
      ∧ out.map (fun r => r.ty_trong_sau)
          = df.map (fun r => some (r.nam_sau.getD 0
              / (if a.nam_sau.getD 0 ≠ 0 then a.nam_sau.getD 0 else eps) * 100))
      ∧ out.find? matchesTongTaiSan = some a2
      ∧ (a.nam_truoc.getD 0 ≠ 0 → a2.ty_trong_truoc = some 100)
      ∧ (a.nam_sau.getD 0 ≠ 0 → a2.ty_trong_sau = some 100) := by
  have hfind : (prepared df).find? matchesTongTaiSan = some (addGrowth (coerceRow a)) := by
    rw [find?_prepared, ha]; rfl
  refine ⟨(prepared df).map
      (addShares (if a.nam_truoc.getD 0 ≠ 0 then a.nam_truoc.getD 0 else eps)
                 (if a.nam_sau.getD 0 ≠ 0 then a.nam_sau.getD 0 else eps)),
    addShares (if a.nam_truoc.getD 0 ≠ 0 then a.nam_truoc.getD 0 else eps)
              (if a.nam_sau.getD 0 ≠ 0 then a.nam_sau.getD 0 else eps)
      (addGrowth (coerceRow a)), ?_, ?_, ?_, ?_, ?_, ?_⟩
  · unfold process_financial_data process_state
    rw [hfind]
    exact rfl
  · unfold prepared
    rw [List.map_map, List.map_map]
    congr 1
  · unfold prepared
    rw [List.map_map, List.map_map]
    congr 1
  · rw [List.find?_map]
    have hcomp : (matchesTongTaiSan ∘
        addShares (if a.nam_truoc.getD 0 ≠ 0 then a.nam_truoc.getD 0 else eps)
                  (if a.nam_sau.getD 0 ≠ 0 then a.nam_sau.getD 0 else eps))
        = matchesTongTaiSan := funext (fun r => rfl)
    rw [hcomp, hfind]
    rfl
  · intro hp
    show some (a.nam_truoc.getD 0
        / (if a.nam_truoc.getD 0 ≠ 0 then a.nam_truoc.getD 0 else eps) * 100) = some 100
    rw [if_pos hp, div_self hp, one_mul]
  · intro hc
    show some (a.nam_sau.getD 0
        / (if a.nam_sau.getD 0 ≠ 0 then a.nam_sau.getD 0 else eps) * 100) = some 100
    rw [if_pos hc, div_self hc, one_mul]

def exDf10 : List FinRow :=
  [ { chi_tieu := "TỔNG CỘNG TÀI SẢN", nam_truoc := some 1000, nam_sau := some 0 },
    { chi_tieu := "TỔNG CỘNG TÀI SẢN (kiểm tra lại)", nam_truoc := some 500, nam_sau := some 600 } ]

def anchor10 : FinRow :=
  { chi_tieu := "TỔNG CỘNG TÀI SẢN", nam_truoc := some 1000, nam_sau := some 0 }

/-- Witness for C10 at a table with two anchor-like rows whose first match
has nonzero prior and zero current: the first row anchors both share columns
for both rows (the second matching row is ignored), its own prior share is
100 through the nonzero branch, while its zero current value routes the
whole current-share column through the epsilon divisor (0 and 6e13). -/
theorem anchor_first_match_share_100_witness :
    (∃ out a2, process_financial_data exDf10 = .ok out
      ∧ out.map (fun r => r.ty_trong_truoc)
          = exDf10.map (fun r => some (r.nam_truoc.getD 0
              / (if anchor10.nam_truoc.getD 0 ≠ 0 then anchor10.nam_truoc.getD 0 else eps) * 100))
      ∧ out.map (fun r => r.ty_trong_sau)
          = exDf10.map (fun r => some (r.nam_sau.getD 0
              / (if anchor10.nam_sau.getD 0 ≠ 0 then anchor10.nam_sau.getD 0 else eps) * 100))
      ∧ out.find? matchesTongTaiSan = some a2
      ∧ (anchor10.nam_truoc.getD 0 ≠ 0 → a2.ty_trong_truoc = some 100)
      ∧ (anchor10.nam_sau.getD 0 ≠ 0 → a2.ty_trong_sau = some 100))
    ∧ anchor10.nam_truoc.getD 0 ≠ 0
    ∧ ((process_financial_data exDf10).toOption.getD []).map (fun r => r.ty_trong_truoc)
        = [some 100, some 50]
    ∧ ((process_financial_data exDf10).toOption.getD []).map (fun r => r.ty_trong_sau)
        = [some 0, some 60000000000000] :=
  ⟨anchor_first_match_share_100 exDf10 anchor10 rfl,
   by norm_num [anchor10],
   by with_unfolding_all rfl, by with_unfolding_all rfl⟩

/-! ## C7: zero liabilities give the infinity sentinel, delta becomes N/A -/

/-- C7: with both indicator rows present, the section-4 computation succeeds
(no division error); a zero short-term-liabilities value for a period makes
that period's ratio the `float(inf)` sentinel, displayed as the infinity
symbol, and the delta renders as N/A whenever either ratio is the sentinel. -/
theorem zero_liabilities_sentinel (dfp : List FinRow) (ra rl : FinRow)
    (hA : dfp.find? matchesTaiSanNganHan = some ra)
    (hL : dfp.find? matchesNoNganHan = some rl) :
    ∃ rN rN1, chucNang4 dfp = some (rN, rN1)
      ∧ (rl.nam_sau.getD 0 = 0 → rN = none ∧ ratioText rN = .infinitySymbol)
      ∧ (rl.nam_truoc.getD 0 = 0 → rN1 = none ∧ ratioText rN1 = .infinitySymbol)
      ∧ ((rN = none ∨ rN1 = none) → deltaText rN rN1 = .na) := by
  refine ⟨thanh_toan_hien_hanh (ra.nam_sau.getD 0) (rl.nam_sau.getD 0),
          thanh_toan_hien_hanh (ra.nam_truoc.getD 0) (rl.nam_truoc.getD 0), ?_, ?_, ?_, ?_⟩
  · unfold chucNang4
    rw [hA, hL]
  · intro h0
    have hn : thanh_toan_hien_hanh (ra.nam_sau.getD 0) (rl.nam_sau.getD 0) = none := by
      unfold thanh_toan_hien_hanh
      rw [h0]
      simp
    exact ⟨hn, by rw [hn]; rfl⟩
  · intro h0
    have hn : thanh_toan_hien_hanh (ra.nam_truoc.getD 0) (rl.nam_truoc.getD 0) = none := by
      unfold thanh_toan_hien_hanh
      rw [h0]
      simp
    exact ⟨hn, by rw [hn]; rfl⟩
  · intro h
    cases h with
    | inl h => rw [h]; rfl
    | inr h =>
        rw [h]
        cases thanh_toan_hien_hanh (ra.nam_sau.getD 0) (rl.nam_sau.getD 0) with
        | none => rfl
        | some q => rfl

def rowTSNH7 : FinRow :=
  { chi_tieu := "TÀI SẢN NGẮN HẠN", nam_truoc := some 400, nam_sau := some 500 }

def rowNNH7 : FinRow :=
  { chi_tieu := "NỢ NGẮN HẠN", nam_truoc := some 200, nam_sau := some 0 }

def exDfp7 : List FinRow := [rowTSNH7, rowNNH7]

/-- Witness for C7: short-term assets 500 against short-term liabilities 0
in the current period gives the sentinel (shown as infinity), and the delta
against the prior period (ratio 2) is N/A. -/
theorem zero_liabilities_sentinel_witness :
    (∃ rN rN1, chucNang4 exDfp7 = some (rN, rN1)
      ∧ (rowNNH7.nam_sau.getD 0 = 0 → rN = none ∧ ratioText rN = .infinitySymbol)
      ∧ (rowNNH7.nam_truoc.getD 0 = 0 → rN1 = none ∧ ratioText rN1 = .infinitySymbol)
      ∧ ((rN = none ∨ rN1 = none) → deltaText rN rN1 = .na))
    ∧ chucNang4 exDfp7 = some (none, some 2)
    ∧ ratioText none = MetricText.infinitySymbol
    ∧ deltaText none (some 2) = DeltaText.na :=
  ⟨zero_liabilities_sentinel exDfp7 rowTSNH7 rowNNH7 rfl rfl,
   by with_unfolding_all rfl, rfl, rfl⟩

/-! ## C8: a missing short-term-assets row aborts the tail of the page -/

def exDf8 : List FinRow :=
  [ { chi_tieu := "NỢ NGẮN HẠN", nam_truoc := some 200, nam_sau := some 100 },
    { chi_tieu := "TỔNG CỘNG TÀI SẢN", nam_truoc := some 1000, nam_sau := some 1200 } ]

/-- C8: on a table whose short-term-assets row is absent, the warning is
shown and the derived table has already rendered, but building `data_for_ai`
(line 207) indexes the same absent row outside the `IndexError` handler, so
the AI and chat sections never render and a generic error is shown instead:
the rest of the output does not all still render, contrary to the claim. -/
theorem missing_assets_row_aborts_ai_sections :
    appBody true exDf8
      = [Shown.derivedTable ((prepared exDf8).map (addShares 1000 1200)),
         Shown.warningMissingIndicator, Shown.genericError]
    ∧ Shown.aiSection true ∉ appBody true exDf8
    ∧ Shown.chatSection true ∉ appBody true exDf8 := by
  have h : appBody true exDf8
      = [Shown.derivedTable ((prepared exDf8).map (addShares 1000 1200)),
         Shown.warningMissingIndicator, Shown.genericError] := by
    with_unfolding_all rfl
  refine ⟨h, ?_, ?_⟩ <;> rw [h] <;> simp

/-! ## C6: mutation of the argument, determinism, and the cache -/

def exDf6 : List FinRow :=
  [ { chi_tieu := "TỔNG CỘNG TÀI SẢN", nam_truoc := some 10, nam_sau := some 20 } ]

/-- C6 counterexample: the function assigns coerced value columns and the
derived columns to the DataFrame object it was passed (lines 46, 49, 65-66)
and returns that same object, so after the call the state of the argument
object differs from the table that was passed in. -/
theorem process_mutates_argument : (process_state exDf6).1 ≠ exDf6 := by
  intro h
  have h2 : ((process_state exDf6).1.head?.bind (fun r => r.toc_do_tang_truong)) = some 100 := by
    with_unfolding_all rfl
  rw [h] at h2
  exact Option.noConfusion h2

/-- C6 amended: the transformation is deterministic and repeatable, and the
content-keyed cache of `st.cache_data` returns the prior result on a second
call with an identical table, leaving the cache unchanged (no
recomputation). -/
theorem cache_and_determinism (df : List FinRow) :
    (cachedCall [] df).1 = process_financial_data df
    ∧ cachedCall (cachedCall [] df).2 df = ((cachedCall [] df).1, (cachedCall [] df).2) := by
  constructor
  · rfl
  · show cachedCall [(df, process_financial_data df)] df = _
    unfold cachedCall
    rw [List.find?_cons_of_pos _ (by simp)]
    exact rfl

/-! ## C9: an absent API key disables only the AI features -/

/-- C9: when the key is absent from both the secrets store and the
environment (missing or empty in each), no client is configured, the
commentary function returns the configuration-error message without
attempting any external call, and the derived table of a successfully
processed upload is still rendered. -/
theorem absent_key_disables_ai_only (secrets env : Option String) (data : String)
    (df dfp : List FinRow)
    (hs : secrets = none ∨ secrets = some "")
    (he : env = none ∨ env = some "")
    (hdf : process_financial_data df = .ok dfp) :
    GEMINI_CLIENT secrets env = none
    ∧ get_ai_analysis (GEMINI_CLIENT secrets env) data
        = .configError "Lỗi: Không tìm thấy Khóa API. Vui lòng cấu hình GEMINI_API_KEY."
    ∧ (∀ p, get_ai_analysis (GEMINI_CLIENT secrets env) data ≠ .externalCall p)
    ∧ Shown.derivedTable dfp ∈ appBody ((GEMINI_CLIENT secrets env).isSome) df := by
  have hcl : GEMINI_CLIENT secrets env = none := by
    rcases hs with h | h <;> rcases he with h' | h' <;> subst h <;> subst h' <;> rfl
  refine ⟨hcl, by rw [hcl]; rfl, ?_, ?_⟩
  · intro p hcontra
    rw [hcl] at hcontra
    exact AIOutcome.noConfusion hcontra
  · rw [hcl]
    show Shown.derivedTable dfp ∈ appBody false df
    unfold appBody
    rw [hdf]
    cases hts : dfp.find? matchesTaiSanNganHan <;>
      cases h4 : chucNang4 dfp <;> simp [hts, h4]

def exDf9 : List FinRow :=
  [ { chi_tieu := "TỔNG CỘNG TÀI SẢN", nam_truoc := some 10, nam_sau := some 20 } ]

/-- Witness for C9: both key sources absent, a one-row table that processes
successfully still has its derived table rendered. -/
theorem absent_key_disables_ai_only_witness :
    GEMINI_CLIENT none none = none
    ∧ get_ai_analysis (GEMINI_CLIENT none none) "d"
        = .configError "Lỗi: Không tìm thấy Khóa API. Vui lòng cấu hình GEMINI_API_KEY."
    ∧ (∀ p, get_ai_analysis (GEMINI_CLIENT none none) "d" ≠ .externalCall p)
    ∧ Shown.derivedTable ((prepared exDf9).map (addShares 10 20))
        ∈ appBody ((GEMINI_CLIENT none none).isSome) exDf9 :=
  absent_key_disables_ai_only none none "d" exDf9 ((prepared exDf9).map (addShares 10 20))
    (Or.inl rfl) (Or.inl rfl) rfl
